import Mathlib

/-!
Verification of the Interior Design Studio backend (FastAPI + MongoDB glue layer).
The request handlers in `main.py` and the Pydantic schemas of `schemas.py` are
shallowly embedded below; storage and network collaborators appear as explicit
parameters, and each handler's observable behaviour (response value plus the
side effects it requests) is a pure function of its inputs.
-/

namespace Backend

/-- A JSON-ish value stored in a MongoDB document.  `oid` models a BSON
ObjectId, carrying its hexadecimal string rendering. -/
inductive Value where
  | str (s : String)
  | int (n : Int)
  | bool (b : Bool)
  | null
  | oid (s : String)
  | list (vs : List Value)

mutual

/-- Boolean equality on stored values (BSON equality of two scalars/arrays). -/
def beqValue : Value → Value → Bool
  | .str a, .str b => a == b
  | .int a, .int b => a == b
  | .bool a, .bool b => a == b
  | .null, .null => true
  | .oid a, .oid b => a == b
  | .list as, .list bs => beqValues as bs
  | _, _ => false

/-- Elementwise boolean equality on value arrays. -/
def beqValues : List Value → List Value → Bool
  | [], [] => true
  | a :: as, b :: bs => beqValue a b && beqValues as bs
  | _, _ => false

end

mutual

/-- Python `str()` applied to a stored value (as used on the `_id` field in
`_serialize_docs`). -/
def renderValue : Value → String
  | .str s => s
  | .int n => toString n
  | .bool b => if b then "True" else "False"
  | .null => "None"
  | .oid s => s
  | .list vs => "[" ++ renderValues vs ++ "]"

/-- Comma-joined rendering of a list of values. -/
def renderValues : List Value → String
  | [] => ""
  | [v] => renderValue v
  | v :: w :: rest => renderValue v ++ ", " ++ renderValues (w :: rest)

end

/-- A Mongo document: an ordered association list of field name to value
(Python dicts preserve insertion order and have unique keys). -/
abbrev Doc := List (String × Value)

/-- First-match association-list lookup, the model of `d[k]` / `k in d`. -/
def alookup {α : Type} : List (String × α) → String → Option α
  | [], _ => none
  | (k1, v) :: rest, k => if k1 = k then some v else alookup rest k

/-- Removing a key, the model of `d.pop(k)`'s effect on the dict. -/
def eraseKey {α : Type} (k : String) : List (String × α) → List (String × α)
  | [] => []
  | (k1, v) :: rest => if k1 = k then eraseKey k rest else (k1, v) :: eraseKey k rest

/-- Setting a key, the model of `d[k] = v`: replaces the value in place when
the key is present, otherwise appends the binding at the end. -/
def setKey {α : Type} (k : String) (v : α) : List (String × α) → List (String × α)
  | [] => [(k, v)]
  | (k1, v1) :: rest => if k1 = k then (k, v) :: rest else (k1, v1) :: setKey k v rest

/-- One document of `_serialize_docs`'s loop body: if `"_id"` is present it is
popped and `"id"` is set to its `str()` rendering. -/
def serializeDoc (d : Doc) : Doc :=
  match alookup d "_id" with
  | some v => setKey "id" (Value.str (renderValue v)) (eraseKey "_id" d)
  | none => d

/-- `_serialize_docs` from `main.py`: transforms every document of the list. -/
def _serialize_docs (docs : List Doc) : List Doc :=
  docs.map serializeDoc

theorem alookup_eraseKey {α : Type} (k k1 : String) (l : List (String × α)) :
    alookup (eraseKey k l) k1 = if k1 = k then none else alookup l k1 := by
  induction l with
  | nil => simp [eraseKey, alookup]
  | cons p rest ih =>
    obtain ⟨k2, v⟩ := p
    by_cases h2 : k2 = k
    · by_cases h1 : k1 = k
      · subst h2; subst h1
        simpa [eraseKey, alookup] using ih
      · have hk : ¬ k2 = k1 := fun hh => h1 (hh ▸ h2)
        have hk1 : ¬ k = k1 := fun hh => h1 hh.symm
        simp [eraseKey, alookup, h2, h1, hk, hk1, ih]
    · by_cases h1 : k1 = k
      · have hk : ¬ k2 = k1 := fun hh => h2 (hh.trans h1)
        rw [h1] at ih
        simp only [if_pos rfl] at ih
        simp [eraseKey, alookup, h2, h1, hk, ih]
      · by_cases hk : k2 = k1 <;> simp [eraseKey, alookup, h2, h1, hk, ih]

theorem alookup_setKey_self {α : Type} (k : String) (v : α) (l : List (String × α)) :
    alookup (setKey k v l) k = some v := by
  induction l with
  | nil => simp [setKey, alookup]
  | cons p rest ih =>
    obtain ⟨k2, v2⟩ := p
    by_cases h2 : k2 = k <;> simp [setKey, alookup, h2, ih]

theorem alookup_setKey_ne {α : Type} (k k1 : String) (v : α) (l : List (String × α))
    (hne : k1 ≠ k) : alookup (setKey k v l) k1 = alookup l k1 := by
  induction l with
  | nil => simp [setKey, alookup, Ne.symm hne]
  | cons p rest ih =>
    obtain ⟨k2, v2⟩ := p
    by_cases h2 : k2 = k
    · subst h2
      simp [setKey, alookup, hne, Ne.symm hne]
    · by_cases h12 : k2 = k1 <;> simp [setKey, alookup, h2, h12, hne, ih]

/-- The per-document serialization contract: a document without `"_id"` passes
through untouched; one with `"_id"` gets a string-typed `"id"` field holding
the rendering of the identifier, loses `"_id"`, and keeps every field other
than `"_id"` and `"id"` unchanged. -/
def serializedFrom (d dOut : Doc) : Prop :=
  (alookup d "_id" = none → dOut = d) ∧
  (∀ v, alookup d "_id" = some v →
    alookup dOut "id" = some (Value.str (renderValue v)) ∧
    alookup dOut "_id" = none ∧
    (∀ k, k ≠ "_id" → k ≠ "id" → alookup dOut k = alookup d k))

theorem serializeDoc_spec (d : Doc) : serializedFrom d (serializeDoc d) := by
  constructor
  · intro h
    simp [serializeDoc, h]
  · intro v hv
    refine ⟨?_, ?_, ?_⟩
    · simp [serializeDoc, hv, alookup_setKey_self]
    · have hne : "_id" ≠ "id" := by decide
      simp [serializeDoc, hv, alookup_setKey_ne _ _ _ _ hne, alookup_eraseKey]
    · intro k hk1 hk2
      simp [serializeDoc, hv, alookup_setKey_ne _ _ _ _ hk2, alookup_eraseKey, hk1]

/-- C1: `_serialize_docs` returns a list of the same length in the same
relative order; each output document that had an `"_id"` field instead carries
a string-typed `"id"` field equal to the string rendering of that `"_id"`, the
`"_id"` key is removed, and every other field is unchanged (a document without
`"_id"` passes through verbatim). -/
theorem serialize_docs_correct (docs : List Doc) :
    (_serialize_docs docs).length = docs.length ∧
    ∀ i (h : i < docs.length),
      serializedFrom (docs.get ⟨i, h⟩)
        ((_serialize_docs docs).get ⟨i, by simpa [_serialize_docs] using h⟩) := by
  refine ⟨by simp [_serialize_docs], ?_⟩
  intro i h
  simp only [_serialize_docs, List.get_eq_getElem, List.getElem_map]
  exact serializeDoc_spec _

/-- C1 witness: the contract evaluated on a concrete two-document list. -/
theorem serialize_docs_correct_witness :
    serializedFrom [("_id", Value.oid "abc123"), ("title", Value.str "Chair")]
      ((_serialize_docs [[("_id", Value.oid "abc123"), ("title", Value.str "Chair")],
        [("x", Value.int 3)]]).get ⟨0, by decide⟩) :=
  (serialize_docs_correct [[("_id", Value.oid "abc123"), ("title", Value.str "Chair")],
    [("x", Value.int 3)]]).2 0 (by decide)

/-! ## Query-parameter to storage-filter translation (read paths of `main.py`) -/

/-- One MongoDB filter condition as built by the handlers: an exact match
(`{field: v}`), a `{"$gte": n}` bound, or a `{"$in": [...]}` membership test. -/
inductive FilterCond where
  | eqv (v : Value)
  | gte (n : Int)
  | inArr (vs : List Value)

/-- A MongoDB filter document: ordered field-name/condition pairs. -/
abbrev Filter := List (String × FilterCond)

/-- Python truthiness of an `Optional[str]` value: `None` and `""` are falsy. -/
def pyTruthy : Option String → Bool
  | none => false
  | some s => !(s == "")

/-- Whether one filter condition holds of a document field's value (MongoDB
matching semantics: an exact match also matches an array containing the value,
`$gte` requires a numeric value at least the bound, `$in` matches a field that
equals, or an array field containing, one of the listed values). -/
def condHolds : FilterCond → Option Value → Bool
  | .eqv v, some (.list ws) => beqValue (Value.list ws) v || ws.any (fun w => beqValue w v)
  | .eqv v, some w => beqValue w v
  | .eqv _, none => false
  | .gte n, some (.int m) => n ≤ m
  | .gte _, _ => false
  | .inArr vs, some (.list ws) => ws.any (fun w => vs.any (fun v => beqValue w v))
  | .inArr vs, some w => vs.any (fun v => beqValue w v)
  | .inArr _, none => false

/-- A document matches a filter when every listed condition holds of the
corresponding field (MongoDB filters are conjunctive). -/
def docMatches (f : Filter) (d : Doc) : Bool :=
  f.all (fun p => condHolds p.2 (alookup d p.1))

/-- The contribution of one optional string parameter to a filter, guarded by
Python truthiness (absent or empty adds nothing, otherwise an exact-match
condition on `field`). -/
def strEqPart (field : String) (v : Option String) : Filter :=
  match v with
  | some s => if s = "" then [] else [(field, FilterCond.eqv (Value.str s))]
  | none => []

/-- The contribution of one optional boolean parameter, guarded by the
`is not None` test of the handler. -/
def boolEqPart (field : String) (v : Option Bool) : Filter :=
  match v with
  | some b => [(field, FilterCond.eqv (Value.bool b))]
  | none => []

/-- Filter built by `list_products`: `category` and `room_type` are added under
a Python truthiness test, `in_stock` under an `is not None` test, in this
order. -/
def productFilter (category room_type : Option String) (in_stock : Option Bool) : Filter :=
  strEqPart "category" category ++ strEqPart "room_type" room_type ++
    boolEqPart "in_stock" in_stock

/-- Filter built by `list_projects`: `style` and `room` under truthiness
tests. -/
def projectFilter (style room : Option String) : Filter :=
  strEqPart "style" style ++ strEqPart "room" room

/-- Filter built by `list_testimonials`: always `{"rating": {"$gte": min_rating}}`. -/
def testimonialFilter (min_rating : Int) : Filter :=
  [("rating", FilterCond.gte min_rating)]

/-- The `keyword` contribution of `list_blogposts`, guarded by truthiness:
`{"keywords": {"$in": [keyword]}}`. -/
def keywordPart (keyword : Option String) : Filter :=
  match keyword with
  | some s => if s = "" then [] else [("keywords", FilterCond.inArr [Value.str s])]
  | none => []

/-- Filter built by `list_blogposts`: `{"published": published}` always, plus
the `keyword` contribution. -/
def blogFilter (published : Bool) (keyword : Option String) : Filter :=
  ("published", FilterCond.eqv (Value.bool published)) :: keywordPart keyword

/-- FastAPI parameter boundary for `min_rating : int = Query(1, ge=1, le=5)`:
absent defaults to 1, an out-of-range value is rejected with a 422 before the
handler runs. -/
def parseMinRating : Option Int → Except Unit Int
  | none => .ok 1
  | some r => if 1 ≤ r ∧ r ≤ 5 then .ok r else .error ()

/-- FastAPI parameter boundary for `published : bool = True`: absent defaults
to `true`. -/
def parsePublished : Option Bool → Bool
  | none => true
  | some b => b

/-- A `fastapi.HTTPException`: status code plus detail string. -/
structure HTTPExc where
  status : Nat
  detail : String
deriving DecidableEq

/-- `list_products` from `main.py`: builds its filter, asks storage for the
matching `"product"` documents and serializes them; a storage error surfaces
as a 500 carrying the error text. -/
def list_products (category room_type : Option String) (in_stock : Option Bool)
    (get_documents : String → Filter → Except String (List Doc)) :
    Except HTTPExc (List Doc) :=
  match get_documents "product" (productFilter category room_type in_stock) with
  | .ok docs => .ok (_serialize_docs docs)
  | .error e => .error ⟨500, e⟩

/-- `list_projects` from `main.py`. -/
def list_projects (style room : Option String)
    (get_documents : String → Filter → Except String (List Doc)) :
    Except HTTPExc (List Doc) :=
  match get_documents "project" (projectFilter style room) with
  | .ok docs => .ok (_serialize_docs docs)
  | .error e => .error ⟨500, e⟩

/-- `list_testimonials` from `main.py` (after the parameter boundary has
accepted `min_rating`). -/
def list_testimonials (min_rating : Int)
    (get_documents : String → Filter → Except String (List Doc)) :
    Except HTTPExc (List Doc) :=
  match get_documents "testimonial" (testimonialFilter min_rating) with
  | .ok docs => .ok (_serialize_docs docs)
  | .error e => .error ⟨500, e⟩

/-- `list_blogposts` from `main.py`. -/
def list_blogposts (published : Bool) (keyword : Option String)
    (get_documents : String → Filter → Except String (List Doc)) :
    Except HTTPExc (List Doc) :=
  match get_documents "blogpost" (blogFilter published keyword) with
  | .ok docs => .ok (_serialize_docs docs)
  | .error e => .error ⟨500, e⟩

theorem alookup_append {α : Type} (l1 l2 : List (String × α)) (k : String) :
    alookup (l1 ++ l2) k =
      (match alookup l1 k with
        | some v => some v
        | none => alookup l2 k) := by
  induction l1 with
  | nil => simp [alookup]
  | cons p rest ih =>
    obtain ⟨k1, v⟩ := p
    by_cases h : k1 = k <;> simp [alookup, h, ih]

theorem alookup_strEqPart_self (field : String) (v : Option String) :
    alookup (strEqPart field v) field =
      (match v with
        | some s => if s = "" then none else some (FilterCond.eqv (Value.str s))
        | none => none) := by
  rcases v with _ | s
  · simp [strEqPart, alookup]
  · by_cases hs : s = "" <;> simp [strEqPart, alookup, hs]

theorem alookup_strEqPart_ne (field k : String) (v : Option String) (h : ¬ field = k) :
    alookup (strEqPart field v) k = none := by
  rcases v with _ | s
  · simp [strEqPart, alookup]
  · by_cases hs : s = "" <;> simp [strEqPart, alookup, hs, h]

theorem alookup_boolEqPart_self (field : String) (v : Option Bool) :
    alookup (boolEqPart field v) field =
      (match v with
        | some b => some (FilterCond.eqv (Value.bool b))
        | none => none) := by
  rcases v with _ | b <;> simp [boolEqPart, alookup]

theorem alookup_boolEqPart_ne (field k : String) (v : Option Bool) (h : ¬ field = k) :
    alookup (boolEqPart field v) k = none := by
  rcases v with _ | b <;> simp [boolEqPart, alookup, h]

theorem docMatches_append (f1 f2 : Filter) (d : Doc) :
    docMatches (f1 ++ f2) d = (docMatches f1 d && docMatches f2 d) := by
  simp [docMatches, List.all_append]

/-- C2 counterexample: with `category` supplied as the empty string the filter
contains no `"category"` key at all, so "the filter contains the key
'category' mapped to the supplied value exactly when the category parameter
is supplied" fails at the supplied value `""`. -/
theorem productFilter_empty_category_refutes :
    (some "" : Option String) ≠ none ∧
    alookup (productFilter (some "") none none) "category" = none := by
  constructor
  · simp
  · simp [productFilter, strEqPart, boolEqPart, alookup]

/-- C2 (amended): the products filter carries `"category"`/`"room_type"`
exactly when the parameter is supplied non-empty (an exact match on the
supplied value), carries `"in_stock"` exactly when `in_stock` is supplied
(including `false`), absent parameters contribute no key, and the supplied
parameters combine conjunctively: a document matches the combined filter iff
it matches each parameter's filter separately. -/
theorem productFilter_correct (c r : Option String) (i : Option Bool) :
    (∀ s, alookup (productFilter c r i) "category" =
        some (FilterCond.eqv (Value.str s)) ↔ (c = some s ∧ ¬ s = "")) ∧
    (∀ s, alookup (productFilter c r i) "room_type" =
        some (FilterCond.eqv (Value.str s)) ↔ (r = some s ∧ ¬ s = "")) ∧
    (∀ b, alookup (productFilter c r i) "in_stock" =
        some (FilterCond.eqv (Value.bool b)) ↔ i = some b) ∧
    (c = none → alookup (productFilter c r i) "category" = none) ∧
    (r = none → alookup (productFilter c r i) "room_type" = none) ∧
    (i = none → alookup (productFilter c r i) "in_stock" = none) ∧
    (∀ d, docMatches (productFilter c r i) d =
      (docMatches (productFilter c none none) d &&
       docMatches (productFilter none r none) d &&
       docMatches (productFilter none none i) d)) := by
  have hrc : ¬("room_type" : String) = "category" := by decide
  have hic : ¬("in_stock" : String) = "category" := by decide
  have hcr : ¬("category" : String) = "room_type" := by decide
  have hir : ¬("in_stock" : String) = "room_type" := by decide
  have hci : ¬("category" : String) = "in_stock" := by decide
  have hri : ¬("room_type" : String) = "in_stock" := by decide
  refine ⟨?_, ?_, ?_, ?_, ?_, ?_, ?_⟩
  · intro s
    rw [productFilter, alookup_append, alookup_append, alookup_strEqPart_self,
      alookup_strEqPart_ne _ _ _ hrc, alookup_boolEqPart_ne _ _ _ hic]
    rcases c with _ | cs
    · simp
    · by_cases hcs : cs = "" <;> simp [hcs] <;> rintro rfl <;> simp [hcs]
  · intro s
    rw [productFilter, alookup_append, alookup_append,
      alookup_strEqPart_ne _ _ _ hcr, alookup_strEqPart_self,
      alookup_boolEqPart_ne _ _ _ hir]
    rcases r with _ | rs
    · simp
    · by_cases hrs : rs = "" <;> simp [hrs] <;> rintro rfl <;> simp [hrs]
  · intro b
    rw [productFilter, alookup_append, alookup_append,
      alookup_strEqPart_ne _ _ _ hci, alookup_strEqPart_ne _ _ _ hri,
      alookup_boolEqPart_self]
    rcases i with _ | ib
    · simp
    · simp
  · rintro rfl
    rw [productFilter, alookup_append, alookup_append, alookup_strEqPart_self,
      alookup_strEqPart_ne _ _ _ hrc, alookup_boolEqPart_ne _ _ _ hic]
  · rintro rfl
    rw [productFilter, alookup_append, alookup_append,
      alookup_strEqPart_ne _ _ _ hcr, alookup_strEqPart_self,
      alookup_boolEqPart_ne _ _ _ hir]
  · rintro rfl
    rw [productFilter, alookup_append, alookup_append,
      alookup_strEqPart_ne _ _ _ hci, alookup_strEqPart_ne _ _ _ hri,
      alookup_boolEqPart_self]
  · intro d
    simp only [productFilter, docMatches_append]
    cases docMatches (strEqPart "category" c) d <;>
      cases docMatches (strEqPart "room_type" r) d <;>
      cases docMatches (boolEqPart "in_stock" i) d <;>
      simp [docMatches, strEqPart, boolEqPart]

/-- C2 witness: the amended contract evaluated at
`category = "lighting"`, `room_type` absent, `in_stock = true`. -/
theorem productFilter_correct_witness :
    alookup (productFilter (some "lighting") none (some true)) "category" =
        some (FilterCond.eqv (Value.str "lighting")) ∧
    alookup (productFilter (some "lighting") none (some true)) "in_stock" =
        some (FilterCond.eqv (Value.bool true)) ∧
    alookup (productFilter (some "lighting") none (some true)) "room_type" = none :=
  ⟨((productFilter_correct (some "lighting") none (some true)).1 "lighting").mpr
      (by simp),
   ((productFilter_correct (some "lighting") none (some true)).2.2.1 true).mpr rfl,
   (productFilter_correct (some "lighting") none (some true)).2.2.2.2.1 rfl⟩

/-- C5: the testimonials read path filters on `rating ≥ min_rating`: the
parameter boundary accepts absent `min_rating` as 1 and rejects any value
outside `[1,5]` before the handler runs, the filter passed to storage is
`{"rating": {"$gte": r}}`, and any document matching that filter carries an
integer `rating` field at least `r`. -/
theorem testimonialFilter_correct (r : Int) :
    parseMinRating none = .ok 1 ∧
    (∀ q : Int, q < 1 ∨ 5 < q → parseMinRating (some q) = .error ()) ∧
    (∀ q : Int, 1 ≤ q → q ≤ 5 → parseMinRating (some q) = .ok q) ∧
    testimonialFilter r = [("rating", FilterCond.gte r)] ∧
    (∀ d : Doc, docMatches (testimonialFilter r) d = true →
      ∃ n : Int, alookup d "rating" = some (Value.int n) ∧ r ≤ n) := by
  refine ⟨rfl, ?_, ?_, rfl, ?_⟩
  · intro q hq
    have : ¬ (1 ≤ q ∧ q ≤ 5) := by omega
    simp [parseMinRating, this]
  · intro q h1 h5
    simp [parseMinRating, h1, h5]
  · intro d hmatch
    simp only [docMatches, testimonialFilter, List.all_cons, List.all_nil,
      Bool.and_true] at hmatch
    rcases hv : alookup d "rating" with _ | v
    · rw [hv] at hmatch
      simp [condHolds] at hmatch
    · rw [hv] at hmatch
      cases v <;> simp [condHolds] at hmatch
      case int n => exact ⟨n, rfl, by exact_mod_cast hmatch⟩

/-- C5 witness: the contract evaluated at `r = 3` on a document with
rating 4. -/
theorem testimonialFilter_correct_witness :
    ∃ n : Int, alookup [("rating", Value.int 4)] "rating" = some (Value.int n) ∧
      (3 : Int) ≤ n :=
  (testimonialFilter_correct 3).2.2.2.2 [("rating", Value.int 4)] (by decide)

/-- C6 counterexample: with `keyword` supplied as the empty string the blog
filter contains no `"keywords"` constraint, so "contains a constraint ...
exactly when the keyword parameter is supplied" fails at the supplied
value `""`. -/
theorem blogFilter_empty_keyword_refutes :
    (some "" : Option String) ≠ none ∧
    alookup (blogFilter true (some "")) "keywords" = none := by
  constructor
  · simp
  · simp [blogFilter, keywordPart, alookup]

/-- C6 (amended): the blog filter always contains `"published"` mapped to the
supplied boolean (which the parameter boundary defaults to `true` when
absent), and contains the `{"$in": [keyword]}` constraint on `"keywords"`
exactly when the keyword parameter is supplied non-empty. -/
theorem blogFilter_correct (p : Bool) (k : Option String) :
    parsePublished none = true ∧
    alookup (blogFilter p k) "published" = some (FilterCond.eqv (Value.bool p)) ∧
    (∀ s, alookup (blogFilter p k) "keywords" =
        some (FilterCond.inArr [Value.str s]) ↔ (k = some s ∧ ¬ s = "")) := by
  have hpk : ¬("published" : String) = "keywords" := by decide
  refine ⟨rfl, by simp [blogFilter, alookup], ?_⟩
  intro s
  simp only [blogFilter, alookup, if_neg hpk]
  rcases k with _ | ks
  · simp [keywordPart, alookup]
  · by_cases hks : ks = "" <;> simp [keywordPart, alookup, hks] <;>
      rintro rfl <;> simp [hks]

/-- C6 witness: the amended contract evaluated at `published = true`,
`keyword = "interior design"`. -/
theorem blogFilter_correct_witness :
    alookup (blogFilter true (some "interior design")) "published" =
        some (FilterCond.eqv (Value.bool true)) ∧
    alookup (blogFilter true (some "interior design")) "keywords" =
        some (FilterCond.inArr [Value.str "interior design"]) :=
  ⟨(blogFilter_correct true (some "interior design")).2.1,
   ((blogFilter_correct true (some "interior design")).2.2 "interior design").mpr
     (by simp)⟩

/-- C10: an empty-string `category`, `room_type`, `style`, `room` or `keyword`
parameter yields exactly the same storage filter as an absent one — the
empty-string value is never matched against documents. -/
theorem empty_string_params_like_absent (rt c s r : Option String)
    (is : Option Bool) (p : Bool) :
    productFilter (some "") rt is = productFilter none rt is ∧
    productFilter c (some "") is = productFilter c none is ∧
    projectFilter (some "") r = projectFilter none r ∧
    projectFilter s (some "") = projectFilter s none ∧
    blogFilter p (some "") = blogFilter p none := by
  refine ⟨?_, ?_, ?_, ?_, ?_⟩ <;>
    simp [productFilter, projectFilter, blogFilter, strEqPart, keywordPart]

/-! ## Pydantic schemas (`schemas.py`)

Entity types hold the validated field values; `FieldVal` distinguishes, at
the validation boundary, a field absent from the input mapping from one
explicitly supplied as `null` and from one carrying a value.  URL syntax
checking (`HttpUrl`) is a library concern, abstracted as a predicate
parameter.  The validators below produce the fully-populated entity on
success; on failure only the fact of rejection is modelled (pydantic
additionally enumerates the violated fields). -/

/-- State of one field of the raw input mapping. -/
inductive FieldVal (α : Type) where
  | omitted
  | null
  | given (a : α)

/-- A required `str` field: absent or `null` input is rejected. -/
def reqStr : FieldVal String → Except String String
  | .given s => .ok s
  | _ => .error "field required"

/-- An `Optional[str] = Field(None)` field: absent and `null` both yield
`None`. -/
def optStr : FieldVal String → Except String (Option String)
  | .given s => .ok (some s)
  | _ => .ok none

/-- An `Optional[HttpUrl] = Field(None)` field: a supplied value must satisfy
URL syntax. -/
def optUrl (isUrl : String → Bool) : FieldVal String → Except String (Option String)
  | .given s => if isUrl s then .ok (some s) else .error "invalid URL"
  | _ => .ok none

/-- A `bool = Field(default)` field: absent yields the default, `null` is not
an allowed value for a non-optional bool. -/
def boolDefault (dflt : Bool) : FieldVal Bool → Except String Bool
  | .omitted => .ok dflt
  | .null => .error "none is not an allowed value"
  | .given b => .ok b

/-- An `Optional[List[str]] = Field(default_factory=list)` field: absent
yields the empty list, an explicit `null` is accepted by the `Optional`
annotation and yields `None`. -/
def optListStr : FieldVal (List String) → Except String (Option (List String))
  | .omitted => .ok (some [])
  | .null => .ok none
  | .given xs => .ok (some xs)

/-- An `Optional[List[HttpUrl]] = Field(default_factory=list)` field: like
`optListStr` with URL syntax checked on every element. -/
def optListUrl (isUrl : String → Bool) :
    FieldVal (List String) → Except String (Option (List String))
  | .omitted => .ok (some [])
  | .null => .ok none
  | .given xs => if xs.all isUrl then .ok (some xs) else .error "invalid URL"

/-- A required `float = Field(..., ge=0)` field (prices are exact decimals,
modelled as rationals). -/
def reqPrice : FieldVal Rat → Except String Rat
  | .given q => if 0 ≤ q then .ok q else .error "ensure this value is greater than or equal to 0"
  | _ => .error "field required"

/-- An `Optional[int] = Field(None, ge=lo)` field. -/
def optIntGe (lo : Int) : FieldVal Int → Except String (Option Int)
  | .given n => if lo ≤ n then .ok (some n) else .error "value out of range"
  | _ => .ok none

/-- Validated `Product` (collection `"product"`). -/
structure Product where
  title : String
  description : Option String
  price : Rat
  category : String
  room_type : Option String
  image_url : Option String
  in_stock : Bool
  tags : Option (List String)
deriving DecidableEq

/-- Validated `Testimonial` (collection `"testimonial"`). -/
structure Testimonial where
  client_name : String
  project_type : Option String
  rating : Int
  quote : String
  photo_url : Option String
  case_study_url : Option String
deriving DecidableEq

/-- Validated `Project` (collection `"project"`). -/
structure Project where
  title : String
  style : Option String
  room : Option String
  budget_range : Option String
  duration_weeks : Option Int
  description : Option String
  before_image_url : Option String
  after_image_url : Option String
  gallery : Option (List String)
deriving DecidableEq

/-- Validated `Lead` (collection `"lead"`); `preferred_date` is a timestamp. -/
structure Lead where
  name : String
  email : String
  phone : Option String
  project_details : Option String
  preferred_date : Option Int
  source : Option String
  consent : Bool
deriving DecidableEq

/-- Validated `BlogPost` (collection `"blogpost"`). -/
structure BlogPost where
  title : String
  slug : String
  excerpt : Option String
  content : String
  cover_image_url : Option String
  keywords : Option (List String)
  published : Bool
deriving DecidableEq

/-- Construction of a `Product` from a raw input mapping: every field
validates independently and the entity is produced when all succeed. -/
def validateProduct (isUrl : String → Bool)
    (title description : FieldVal String) (price : FieldVal Rat)
    (category room_type image_url : FieldVal String)
    (in_stock : FieldVal Bool) (tags : FieldVal (List String)) :
    Except String Product :=
  match reqStr title, optStr description, reqPrice price, reqStr category,
      optStr room_type, optUrl isUrl image_url, boolDefault true in_stock,
      optListStr tags with
  | .ok t, .ok d, .ok p, .ok c, .ok rt, .ok iu, .ok ins, .ok tg =>
    .ok { title := t, description := d, price := p, category := c,
          room_type := rt, image_url := iu, in_stock := ins, tags := tg }
  | _, _, _, _, _, _, _, _ => .error "validation error"

/-- Construction of a `Project` from a raw input mapping. -/
def validateProject (isUrl : String → Bool)
    (title style room budget_range : FieldVal String)
    (duration_weeks : FieldVal Int)
    (description before_image_url after_image_url : FieldVal String)
    (gallery : FieldVal (List String)) :
    Except String Project :=
  match reqStr title, optStr style, optStr room, optStr budget_range,
      optIntGe 0 duration_weeks, optStr description,
      optUrl isUrl before_image_url, optUrl isUrl after_image_url,
      optListUrl isUrl gallery with
  | .ok t, .ok st, .ok rm, .ok bu, .ok du, .ok de, .ok bi, .ok ai, .ok ga =>
    .ok { title := t, style := st, room := rm, budget_range := bu,
          duration_weeks := du, description := de, before_image_url := bi,
          after_image_url := ai, gallery := ga }
  | _, _, _, _, _, _, _, _, _ => .error "validation error"

/-- Construction of a `BlogPost` from a raw input mapping. -/
def validateBlogPost (isUrl : String → Bool)
    (title slug excerpt content cover_image_url : FieldVal String)
    (keywords : FieldVal (List String)) (published : FieldVal Bool) :
    Except String BlogPost :=
  match reqStr title, reqStr slug, optStr excerpt, reqStr content,
      optUrl isUrl cover_image_url, optListStr keywords,
      boolDefault true published with
  | .ok t, .ok sl, .ok ex, .ok co, .ok cv, .ok kw, .ok pb =>
    .ok { title := t, slug := sl, excerpt := ex, content := co,
          cover_image_url := cv, keywords := kw, published := pb }
  | _, _, _, _, _, _, _ => .error "validation error"

/-- C9 counterexample: each of the three entities validates successfully with
its list field supplied as an explicit `null` (the `Optional` annotation
accepts it), and the constructed entity's list field is then `null` — so
"the constructed entity's list field is never null" fails. -/
theorem optional_list_null_refutes :
    validateProduct (fun _ => true) (.given "t") .omitted (.given 1)
        (.given "c") .omitted .omitted .omitted .null =
      .ok ⟨"t", none, 1, "c", none, none, true, none⟩ ∧
    validateProject (fun _ => true) (.given "t") .omitted .omitted .omitted
        .omitted .omitted .omitted .omitted .null =
      .ok ⟨"t", none, none, none, none, none, none, none, none⟩ ∧
    validateBlogPost (fun _ => true) (.given "t") (.given "s") .omitted
        (.given "body") .omitted .null .omitted =
      .ok ⟨"t", "s", none, "body", none, none, true⟩ := by
  refine ⟨?_, ?_, ?_⟩ <;> rfl

/-- C9 (amended): when the list-typed optional field (`Product.tags`,
`Project.gallery`, `BlogPost.keywords`) is omitted from the input, every
successfully constructed entity carries the empty list there — never null;
an explicitly supplied `null`, however, is accepted and stored as null. -/
theorem optional_list_defaults (isUrl : String → Bool)
    (f1 f2 f4 f5 f6 g1 g2 g3 g4 g6 g7 g8 h1 h2 h3 h4 h5 : FieldVal String)
    (f3 : FieldVal Rat) (f7 h7 : FieldVal Bool) (g5 : FieldVal Int)
    (p : Product) (pr : Project) (b : BlogPost) :
    (validateProduct isUrl f1 f2 f3 f4 f5 f6 f7 .omitted = .ok p →
      p.tags = some []) ∧
    (validateProject isUrl g1 g2 g3 g4 g5 g6 g7 g8 .omitted = .ok pr →
      pr.gallery = some []) ∧
    (validateBlogPost isUrl h1 h2 h3 h4 h5 .omitted h7 = .ok b →
      b.keywords = some []) := by
  refine ⟨?_, ?_, ?_⟩
  · intro h
    unfold validateProduct at h
    split at h
    · rename_i heq
      simp only [optListStr] at *
      cases h
      cases heq
      rfl
    · cases h
  · intro h
    unfold validateProject at h
    split at h
    · rename_i heq
      simp only [optListUrl] at *
      cases h
      cases heq
      rfl
    · cases h
  · intro h
    unfold validateBlogPost at h
    split at h
    · rename_i heqkw heqpb
      simp only [optListStr] at heqkw
      cases h
      cases heqkw
      rfl
    · cases h

/-- C9 witness: a concrete `Product`, `Project` and `BlogPost` built with the
list field omitted each carry the empty list. -/
theorem optional_list_defaults_witness :
    (⟨"t", none, 1, "c", none, none, true, some []⟩ : Product).tags = some [] ∧
    (⟨"t", none, none, none, none, none, none, none, some []⟩ : Project).gallery
      = some [] ∧
    (⟨"t", "s", none, "body", none, some [], true⟩ : BlogPost).keywords
      = some [] :=
  ⟨(optional_list_defaults (fun _ => true) (.given "t") .omitted (.given "c")
      .omitted .omitted (.given "t") .omitted .omitted .omitted .omitted
      .omitted .omitted (.given "t") (.given "s") .omitted (.given "body")
      .omitted (.given 1) .omitted .omitted .omitted
      ⟨"t", none, 1, "c", none, none, true, some []⟩
      ⟨"t", none, none, none, none, none, none, none, some []⟩
      ⟨"t", "s", none, "body", none, some [], true⟩).1 rfl,
   (optional_list_defaults (fun _ => true) (.given "t") .omitted (.given "c")
      .omitted .omitted (.given "t") .omitted .omitted .omitted .omitted
      .omitted .omitted (.given "t") (.given "s") .omitted (.given "body")
      .omitted (.given 1) .omitted .omitted .omitted
      ⟨"t", none, 1, "c", none, none, true, some []⟩
      ⟨"t", none, none, none, none, none, none, none, some []⟩
      ⟨"t", "s", none, "body", none, some [], true⟩).2.1 rfl,
   (optional_list_defaults (fun _ => true) (.given "t") .omitted (.given "c")
      .omitted .omitted (.given "t") .omitted .omitted .omitted .omitted
      .omitted .omitted (.given "t") (.given "s") .omitted (.given "body")
      .omitted (.given 1) .omitted .omitted .omitted
      ⟨"t", none, 1, "c", none, none, true, some []⟩
      ⟨"t", none, none, none, none, none, none, none, some []⟩
      ⟨"t", "s", none, "body", none, some [], true⟩).2.2 rfl⟩

/-! ## Lead creation (`create_lead` in `main.py`) -/

/-- The response body of a successful `POST /api/leads`. -/
structure LeadResponse where
  id : String
  status : String
deriving DecidableEq

/-- The contact payload sent to the HubSpot CRM (the `properties` object). -/
structure CrmContact where
  email : String
  firstname : String
  phone : String
  lifecyclestage : String
  notes : String
deriving DecidableEq

/-- The derived CRM payload: email, name, phone-or-empty-string, the fixed
lifecycle tag `"lead"`, and notes from `project_details`-or-empty-string. -/
def hubspotPayload (l : Lead) : CrmContact :=
  { email := l.email, firstname := l.name, phone := l.phone.getD "",
    lifecyclestage := "lead", notes := l.project_details.getD "" }

/-- Possible outcomes of the outbound `requests.post` to the CRM. -/
inductive CrmOutcome where
  | ok2xx
  | non2xx
  | netError
  | timedOut

/-- The `requests.post` call: a network error or timeout raises (`Except.error`),
any HTTP response — 2xx or not — returns normally, its status unchecked. -/
def attemptCrm : CrmOutcome → Except String Unit
  | .netError => .error "connection error"
  | .timedOut => .error "timeout"
  | _ => .ok ()

/-- `create_lead` from `main.py`: persists the lead; when the HubSpot key is
truthy, attempts the CRM call inside a `try/except: pass`; always answers
`{"id": lead_id, "status": "received"}` unless persistence itself failed
(then 500).  The second component records the outbound calls attempted. -/
def create_lead (l : Lead) (hubspot_key : Option String)
    (create_document : Lead → Except String String) (crm : CrmOutcome) :
    Except HTTPExc LeadResponse × List CrmContact :=
  match create_document l with
  | .error e => (.error ⟨500, e⟩, [])
  | .ok lead_id =>
    if pyTruthy hubspot_key then
      match attemptCrm crm with
      | .ok _ => (.ok ⟨lead_id, "received"⟩, [hubspotPayload l])
      | .error _ => (.ok ⟨lead_id, "received"⟩, [hubspotPayload l])
    else
      (.ok ⟨lead_id, "received"⟩, [])

/-- C3: when persistence succeeds, `POST /api/leads` answers
`{"id": <new id>, "status": "received"}` whatever the CRM outcome (network
error, timeout or non-2xx never change the response), and with no CRM
credential configured no outbound call is attempted at all. -/
theorem create_lead_correct (l : Lead) (key : Option String)
    (create_document : Lead → Except String String) (crm crm2 : CrmOutcome)
    (i : String) (h : create_document l = .ok i) :
    (create_lead l key create_document crm).1 = .ok ⟨i, "received"⟩ ∧
    (create_lead l key create_document crm).1 =
      (create_lead l key create_document crm2).1 ∧
    (key = none → (create_lead l key create_document crm).2 = []) := by
  refine ⟨?_, ?_, ?_⟩
  · unfold create_lead
    rw [h]
    cases htr : pyTruthy key
    · simp
    · cases hc : attemptCrm crm <;> simp
  · unfold create_lead
    rw [h]
    cases htr : pyTruthy key
    · simp
    · cases hc : attemptCrm crm <;> cases hc2 : attemptCrm crm2 <;> simp
  · rintro rfl
    unfold create_lead
    rw [h]
    simp [pyTruthy]

/-- C3 witness: a concrete lead persisted as `"L1"` with the credential unset
and the CRM outcome a timeout. -/
theorem create_lead_correct_witness :
    (create_lead ⟨"Ann", "ann@example.com", none, none, none, some "website", true⟩
        none (fun _ => .ok "L1") .timedOut).1 = .ok ⟨"L1", "received"⟩ ∧
    (create_lead ⟨"Ann", "ann@example.com", none, none, none, some "website", true⟩
        none (fun _ => .ok "L1") .timedOut).1 =
      (create_lead ⟨"Ann", "ann@example.com", none, none, none, some "website", true⟩
        none (fun _ => .ok "L1") .netError).1 ∧
    ((none : Option String) = none →
      (create_lead ⟨"Ann", "ann@example.com", none, none, none, some "website", true⟩
        none (fun _ => .ok "L1") .timedOut).2 = []) :=
  create_lead_correct ⟨"Ann", "ann@example.com", none, none, none, some "website", true⟩
    none (fun _ => .ok "L1") .timedOut .netError "L1" rfl

/-! ## Demo seeding (`seed_demo` in `main.py`) -/

/-- A document as handed to `create_document` by the seed path. -/
inductive StoredEntity where
  | prod (p : Product)
  | testi (t : Testimonial)
  | proj (pr : Project)
  | blog (b : BlogPost)

/-- The fixed batch the seed endpoint inserts, in code order: 2 products,
2 testimonials, 2 projects, 1 blog post, with the literal field values of
`main.py`. -/
def demoInserts : List (String × StoredEntity) :=
  [("product", .prod
      { title := "Modern Lounge Chair",
        description := some "Ergonomic lounge chair in walnut finish.",
        price := 799, category := "furniture", room_type := some "living room",
        image_url := none, in_stock := true, tags := some ["modern", "wood"] }),
   ("product", .prod
      { title := "Marble Pendant Light",
        description := some "Minimal pendant for kitchen islands.",
        price := 199, category := "lighting", room_type := some "kitchen",
        image_url := none, in_stock := true, tags := some ["minimal", "lighting"] }),
   ("testimonial", .testi
      { client_name := "Ava Patel", project_type := some "Full Home", rating := 5,
        quote := "They transformed our space beyond expectations!",
        photo_url := none, case_study_url := none }),
   ("testimonial", .testi
      { client_name := "Liam Chen", project_type := some "Kitchen Remodel", rating := 5,
        quote := "Professional, timely, and stunning results.",
        photo_url := none, case_study_url := none }),
   ("project", .proj
      { title := "Skyline Penthouse", style := some "Modern",
        room := some "Living Room", budget_range := some "$$$",
        duration_weeks := some 12,
        description := some "A sleek urban living space with panoramic views.",
        before_image_url := none, after_image_url := none, gallery := some [] }),
   ("project", .proj
      { title := "Cozy Minimal Bedroom", style := some "Minimalist",
        room := some "Bedroom", budget_range := some "$$",
        duration_weeks := some 6,
        description := some "Calming tones with functional storage solutions.",
        before_image_url := none, after_image_url := none, gallery := some [] }),
   ("blogpost", .blog
      { title := "Top 7 Custom Home Interiors Trends",
        slug := "custom-home-interiors-trends",
        excerpt := some "Explore the latest in custom home interiors.",
        content := "Long-form content about custom home interiors...",
        cover_image_url := none,
        keywords := some ["custom home interiors", "interior design"],
        published := true })]

/-- Sequential execution of the seed inserts: `outcome n` is the error raised
by the n-th `create_document` call (`none` = success); execution stops at the
first failure, returning the documents inserted so far and the error. -/
def runInserts (outcome : Nat → Option String) :
    Nat → List (String × StoredEntity) →
    List (String × StoredEntity) × Option String
  | _, [] => ([], none)
  | n, x :: rest =>
    match outcome n with
    | some e => ([], some e)
    | none =>
      let r := runInserts outcome (n + 1) rest
      (x :: r.1, r.2)

/-- `seed_demo` from `main.py`: a token not equal to the configured secret
(environment value, development default `"dev"` when unset) is rejected with
403 before anything is inserted; otherwise the fixed batch is inserted and
`"seeded"` is returned, or a 500 carries the first storage error.  The second
component records the documents actually inserted. -/
def seed_demo (token : Option String) (seed_token_env : Option String)
    (outcome : Nat → Option String) :
    Except HTTPExc String × List (String × StoredEntity) :=
  if token = some (seed_token_env.getD "dev") then
    match runInserts outcome 0 demoInserts with
    | (ins, none) => (.ok "seeded", ins)
    | (ins, some e) => (.error ⟨500, e⟩, ins)
  else
    (.error ⟨403, "Forbidden"⟩, [])

/-- C4: a `POST /api/seed-demo` whose token differs from the configured secret
(or from the development default `"dev"` when unconfigured) gets a 403 and
causes zero inserts — the check precedes every side effect. -/
theorem seed_demo_forbidden (token seed_token_env : Option String)
    (outcome : Nat → Option String)
    (h : ¬ token = some (seed_token_env.getD "dev")) :
    seed_demo token seed_token_env outcome = (.error ⟨403, "Forbidden"⟩, []) := by
  simp [seed_demo, h]

/-- C4 witness: a wrong token against an unset environment secret. -/
theorem seed_demo_forbidden_witness :
    seed_demo (some "wrong") none (fun _ => none) =
      (.error ⟨403, "Forbidden"⟩, []) :=
  seed_demo_forbidden (some "wrong") none (fun _ => none) (by simp)

/-- Number of documents a seed run inserted into collection `c`. -/
def countColl (c : String) (l : List (String × StoredEntity)) : Nat :=
  (l.filter (fun x => x.1 = c)).length

theorem runInserts_all_ok (outcome : Nat → Option String)
    (h : ∀ n, outcome n = none) :
    ∀ (l : List (String × StoredEntity)) (n : Nat),
      runInserts outcome n l = (l, none) := by
  intro l
  induction l with
  | nil => intro n; simp [runInserts]
  | cons x rest ih => intro n; simp [runInserts, h n, ih (n + 1)]

/-- C7: with the correct token and all inserts succeeding, one call inserts
exactly 2 products, 2 testimonials, 2 projects and 1 blog post (7 documents)
and answers `"seeded"`; the operation is not idempotent — the inserts of two
calls total twice those counts. -/
theorem seed_demo_counts (token seed_token_env : Option String)
    (outcome : Nat → Option String)
    (ht : token = some (seed_token_env.getD "dev"))
    (hok : ∀ n, outcome n = none) :
    (seed_demo token seed_token_env outcome).1 = .ok "seeded" ∧
    (seed_demo token seed_token_env outcome).2 = demoInserts ∧
    countColl "product" (seed_demo token seed_token_env outcome).2 = 2 ∧
    countColl "testimonial" (seed_demo token seed_token_env outcome).2 = 2 ∧
    countColl "project" (seed_demo token seed_token_env outcome).2 = 2 ∧
    countColl "blogpost" (seed_demo token seed_token_env outcome).2 = 1 ∧
    (seed_demo token seed_token_env outcome).2.length = 7 ∧
    countColl "product" ((seed_demo token seed_token_env outcome).2 ++
      (seed_demo token seed_token_env outcome).2) = 4 ∧
    countColl "testimonial" ((seed_demo token seed_token_env outcome).2 ++
      (seed_demo token seed_token_env outcome).2) = 4 ∧
    countColl "project" ((seed_demo token seed_token_env outcome).2 ++
      (seed_demo token seed_token_env outcome).2) = 4 ∧
    countColl "blogpost" ((seed_demo token seed_token_env outcome).2 ++
      (seed_demo token seed_token_env outcome).2) = 2 := by
  have hrun : seed_demo token seed_token_env outcome = (.ok "seeded", demoInserts) := by
    simp [seed_demo, ht, runInserts_all_ok outcome hok]
  rw [hrun]
  refine ⟨rfl, rfl, ?_, ?_, ?_, ?_, ?_, ?_, ?_, ?_, ?_⟩ <;> rfl

/-- C7 witness: the seeded counts at the development default token with an
always-succeeding storage. -/
theorem seed_demo_counts_witness :
    (seed_demo (some "dev") none (fun _ => none)).1 = .ok "seeded" ∧
    countColl "product" (seed_demo (some "dev") none (fun _ => none)).2 = 2 ∧
    countColl "blogpost" ((seed_demo (some "dev") none (fun _ => none)).2 ++
      (seed_demo (some "dev") none (fun _ => none)).2) = 2 :=
  have h := seed_demo_counts (some "dev") none (fun _ => none) rfl (fun _ => rfl)
  ⟨h.1, h.2.2.1, h.2.2.2.2.2.2.2.2.2.2⟩

/-! ## Diagnostics endpoint (`test_database` in `main.py`) -/

/-- Observable state of the lazily-initialized storage handle: `noDb` models
`db is None`; `conn` carries the optional `name` attribute and the outcome of
`list_collection_names()`. -/
inductive DbState where
  | noDb
  | conn (name : Option String) (introspect : Except String (List String))

/-- The diagnostics response object, with the keys of the handler's dict. -/
structure Diagnostics where
  backend : String
  database : String
  database_url : Option String
  database_name : Option String
  connection_status : String
  collections : List String
deriving DecidableEq

/-- Python `str(e)[:50]`. -/
def pyTrunc50 (s : String) : String :=
  s.take 50

/-- `test_database` from `main.py`: fills the response dict according to the
storage state, catching every introspection error, then overwrites the URL and
name markers from the environment flags.  Every path returns normally. -/
def test_database (st : DbState) (dbUrlSet dbNameSet : Bool) :
    Except HTTPExc Diagnostics :=
  let r0 : Diagnostics :=
    { backend := "✅ Running", database := "❌ Not Available",
      database_url := none, database_name := none,
      connection_status := "Not Connected", collections := [] }
  let r1 :=
    match st with
    | .noDb => { r0 with database := "⚠️  Available but not initialized" }
    | .conn nm intro =>
      let rA :=
        { r0 with
          database := "✅ Available", database_url := some "✅ Configured",
          database_name := some (nm.getD "✅ Connected"),
          connection_status := "Connected" }
      match intro with
      | .ok cols =>
        { rA with
          collections := cols.take 10,
          database := "✅ Connected & Working" }
      | .error e =>
        { rA with database := "⚠️  Connected but Error: " ++ pyTrunc50 e }
  .ok { r1 with
    database_url := some (if dbUrlSet then "✅ Set" else "❌ Not Set"),
    database_name := some (if dbNameSet then "✅ Set" else "❌ Not Set") }

/-- C8: under every storage state — handle uninitialized, introspection
raising, or introspection succeeding — `GET /test` never raises: it returns a
success diagnostics object whose `collections` list has at most 10 entries,
with failures reduced to informational strings. -/
theorem test_database_never_fails (st : DbState) (u n : Bool) :
    ∃ d : Diagnostics, test_database st u n = .ok d ∧
      d.collections.length ≤ 10 ∧ d.backend = "✅ Running" := by
  cases st with
  | noDb =>
    exact ⟨⟨"✅ Running", "⚠️  Available but not initialized",
      some (if u then "✅ Set" else "❌ Not Set"),
      some (if n then "✅ Set" else "❌ Not Set"), "Not Connected", []⟩,
      rfl, by simp, rfl⟩
  | conn nm intro =>
    cases intro with
    | ok cols =>
      refine ⟨⟨"✅ Running", "✅ Connected & Working",
        some (if u then "✅ Set" else "❌ Not Set"),
        some (if n then "✅ Set" else "❌ Not Set"), "Connected", cols.take 10⟩,
        rfl, ?_, rfl⟩
      simp only [List.length_take]
      exact Nat.min_le_left _ _
    | error e =>
      exact ⟨⟨"✅ Running", "⚠️  Connected but Error: " ++ pyTrunc50 e,
        some (if u then "✅ Set" else "❌ Not Set"),
        some (if n then "✅ Set" else "❌ Not Set"), "Connected", []⟩,
        rfl, by simp, rfl⟩

end Backend
